import Mathlib

/-!
Bookstore catalog: shallow embedding and verification.

A shallow embedding of the catalog data model and query layer of the
Bookstore repository (`stores/models.py`, `stores/views.py`,
`stores/admin.py`, `stores/urls.py`), together with theorems settling the
specification claims about it.

Modelling conventions:
* Django `DecimalField` values (`price`, `discount_percentage`, …) are
  rationals (`ℚ`): Python `Decimal` arithmetic on these operands is exact,
  and so is `ℚ`.
* `PositiveIntegerField` values are `ℕ`.
* `auto_now_add` timestamps are `ℕ` tick counts (`created_at`); larger means
  more recent.
* A Django queryset over a table is a `List` of rows; `filter` is
  `List.filter`, `order_by` is a stable sort (`List.insertionSort`),
  slicing `[:6]` is `List.take 6`.  `select_related`/`prefetch_related`
  only eager-load associations and do not change the result rows, so they
  have no counterpart here.
-/

namespace Bookstore

/-- Embeds `stores/models.py` `Author` (the fields the claims depend on). -/
structure Author where
  first_name : String
  last_name : String
deriving DecidableEq, Repr

/-- Embeds `Author.full_name`: first name, a space, last name. -/
def Author.full_name (a : Author) : String :=
  a.first_name ++ " " ++ a.last_name

/-- Embeds `stores/models.py` `Category` (only its identity matters to the claims). -/
structure Category where
  name : String
deriving DecidableEq, Repr

/-- Embeds `stores/models.py` `Book`: the fields the claims depend on. The
many-to-many `authors` field holds the association rows in association
order; reading the authors through the related manager (`authors_all`
below) applies the `Author` default ordering, as `self.authors.all()`
does. -/
structure Book where
  id : ℕ
  title : String
  subtitle : String
  isbn_10 : String
  isbn_13 : String
  authors : List Author
  description : String
  language : String
  price : ℚ
  discount_percentage : ℚ
  stock_quantity : ℕ
  min_stock_level : ℕ
  book_format : String
  status : String
  average_rating : ℚ
  total_reviews : ℕ
  featured : Bool
  bestseller : Bool
  new_arrival : Bool
  tags : String
  created_at : ℕ
deriving DecidableEq, Repr

/-- Embeds `Book.discounted_price`: if `discount_percentage > 0` then
`price - (price * discount_percentage) / 100`, else `price`. -/
def Book.discounted_price (b : Book) : ℚ :=
  if b.discount_percentage > 0 then
    b.price - (b.price * b.discount_percentage) / 100
  else
    b.price

/-- Embeds `Book.is_low_stock`: `stock_quantity <= min_stock_level`. -/
def Book.is_low_stock (b : Book) : Bool :=
  decide (b.stock_quantity ≤ b.min_stock_level)

/-- Embeds `Book.is_available`: status equals available and stock is positive. -/
def Book.is_available (b : Book) : Bool :=
  b.status == "available" && decide (0 < b.stock_quantity)

/-- Embeds the ordering that `Author.Meta.ordering` declares: last name
first, then first name, lexicographic on the character sequences. -/
def byAuthorName (a b : Author) : Prop :=
  a.last_name.data < b.last_name.data ∨
    (a.last_name.data = b.last_name.data ∧ a.first_name.data ≤ b.first_name.data)

instance : DecidableRel byAuthorName := fun a b => by
  unfold byAuthorName
  exact inferInstance

instance : IsTotal Author byAuthorName := ⟨fun a b => by
  unfold byAuthorName
  rcases lt_trichotomy a.last_name.data b.last_name.data with h | h | h
  · exact Or.inl (Or.inl h)
  · rcases le_total a.first_name.data b.first_name.data with h2 | h2
    · exact Or.inl (Or.inr ⟨h, h2⟩)
    · exact Or.inr (Or.inr ⟨h.symm, h2⟩)
  · exact Or.inr (Or.inl h)⟩

instance : IsTrans Author byAuthorName := ⟨fun a b c hab hbc => by
  unfold byAuthorName at hab hbc ⊢
  rcases hab with h1 | ⟨e1, f1⟩ <;> rcases hbc with h2 | ⟨e2, f2⟩
  · exact Or.inl (lt_trans h1 h2)
  · exact Or.inl (lt_of_lt_of_le h1 (le_of_eq e2))
  · exact Or.inl (lt_of_le_of_lt (le_of_eq e1) h2)
  · exact Or.inr ⟨e1.trans e2, le_trans f1 f2⟩⟩

/-- Embeds `self.authors.all()` on a book: the related manager returns the
linked authors with the `Author` default `Meta.ordering` applied — sorted
by last name, then first name — not in association order. -/
def Book.authors_all (b : Book) : List Author :=
  b.authors.insertionSort byAuthorName

/-- Embeds `Book.get_authors_display`: joins the full names of
`self.authors.all()` — the name-sorted author list — with a comma-space
separator. -/
def Book.get_authors_display (b : Book) : String :=
  String.intercalate ", " (b.authors_all.map Author.full_name)

/-- Embeds `stores/admin.py` `BookAdmin.get_authors`: joins the full names
of `obj.authors.all()` — the name-sorted author list — with `", "` when
that list is non-empty, and returns the sentinel `"No authors"` when it is
empty. -/
def BookAdmin.get_authors (b : Book) : String :=
  if b.authors_all.isEmpty then "No authors"
  else String.intercalate ", " (b.authors_all.map Author.full_name)

/-- Embeds the ordering used by order_by on title: lexicographic on the
title character sequences. -/
def byTitle (a b : Book) : Prop := a.title.data ≤ b.title.data

instance : DecidableRel byTitle := fun a b => by
  unfold byTitle
  exact inferInstance

instance : IsTotal Book byTitle := ⟨fun a b => le_total a.title.data b.title.data⟩

instance : IsTrans Book byTitle := ⟨fun _ _ _ hab hbc => le_trans hab hbc⟩

/-- Embeds the ordering used by order_by on descending creation time (also
the `Book` default `Meta.ordering`): newest first. -/
def byNewest (a b : Book) : Prop := b.created_at ≤ a.created_at

instance : DecidableRel byNewest := fun a b => by
  unfold byNewest
  exact inferInstance

instance : IsTotal Book byNewest := ⟨fun a b => le_total b.created_at a.created_at⟩

instance : IsTrans Book byNewest := ⟨fun _ _ _ hab hbc => le_trans hbc hab⟩

/-- Embeds the `stores/views.py` `show_books` body: filter the books whose
status column is available, then order by title. -/
def show_books (books : List Book) : List Book :=
  (books.filter (fun b => b.status == "available")).insertionSort byTitle

/-- An HTTP request as the `books/` endpoint can observe it: at most a
free-text query parameter. -/
structure HttpRequest where
  q : Option String
deriving DecidableEq, Repr

/-- Embeds `stores/views.py` `show_books` as mounted at `books/` in
`stores/urls.py`: the view receives the request but reads nothing from it,
so the result does not depend on any query parameter. -/
def show_books_view (request : HttpRequest) (books : List Book) : List Book :=
  show_books books

/-- The context dictionary assembled by `stores/views.py` `home`. -/
structure HomeContext where
  total_books : ℕ
  total_authors : ℕ
  total_categories : ℕ
  featured_books : List Book
  latest_books : List Book
  bestsellers : List Book
deriving DecidableEq, Repr

/-- Embeds `stores/views.py` `home`: three table counts plus three result sets,
each a status-filtered queryset cut to its first 6 rows.  `featured_books`
and `bestsellers` carry the model default ordering by descending creation time;
`latest_books` orders by `-created_at` explicitly. -/
def home (books : List Book) (authors : List Author) (categories : List Category) :
    HomeContext where
  total_books := books.length
  total_authors := authors.length
  total_categories := categories.length
  featured_books :=
    (((books.filter (fun b => b.featured && b.status == "available")).insertionSort
      byNewest).take 6)
  latest_books :=
    (((books.filter (fun b => b.status == "available")).insertionSort byNewest).take 6)
  bestsellers :=
    (((books.filter (fun b => b.bestseller && b.status == "available")).insertionSort
      byNewest).take 6)

/-- The three lookup values of `stores/admin.py` `StockLevelFilter`. -/
inductive StockBand where
  | low
  | out
  | good
deriving DecidableEq, Repr

/-- Embeds `StockLevelFilter.queryset`: the row predicate behind each lookup value
(`low` ↦ `stock_quantity__lte=5, stock_quantity__gt=0`, `out` ↦
`stock_quantity=0`, `good` ↦ `stock_quantity__gt=5`). -/
def StockLevelFilter.matches : StockBand → Book → Bool
  | .low, b => decide (b.stock_quantity ≤ 5) && decide (0 < b.stock_quantity)
  | .out, b => b.stock_quantity == 0
  | .good, b => decide (5 < b.stock_quantity)

/-- The four lookup values of `stores/admin.py` `PriceRangeFilter`. -/
inductive PriceBand where
  | under_20
  | from_20_to_50
  | from_50_to_100
  | over_100
deriving DecidableEq, Repr

/-- Embeds `PriceRangeFilter.queryset`: the row predicate behind each lookup value
(`under_20` ↦ `price__lt=20`, `20_50` ↦ `price__gte=20, price__lt=50`,
`50_100` ↦ `price__gte=50, price__lt=100`, `over_100` ↦ `price__gte=100`). -/
def PriceRangeFilter.matches : PriceBand → Book → Bool
  | .under_20, b => decide (b.price < 20)
  | .from_20_to_50, b => decide (20 ≤ b.price) && decide (b.price < 50)
  | .from_50_to_100, b => decide (50 ≤ b.price) && decide (b.price < 100)
  | .over_100, b => decide (100 ≤ b.price)

/-- Embeds `stores/admin.py` `mark_as_featured`: `queryset.update(featured=True)`
applied to the rows whose id the admin selected. -/
def mark_as_featured (selected : ℕ → Bool) (books : List Book) : List Book :=
  books.map (fun b => if selected b.id then { b with featured := true } else b)

/-- Embeds `stores/admin.py` `mark_as_bestseller`: `queryset.update(bestseller=True)`
applied to the selected rows. -/
def mark_as_bestseller (selected : ℕ → Bool) (books : List Book) : List Book :=
  books.map (fun b => if selected b.id then { b with bestseller := true } else b)

/-- Embeds `stores/admin.py` `apply_discount`:
`queryset.update(discount_percentage=10)` applied to the selected rows. -/
def apply_discount (selected : ℕ → Bool) (books : List Book) : List Book :=
  books.map (fun b => if selected b.id then { b with discount_percentage := 10 } else b)

/-- Embeds `stores/models.py` `BookReview` (the fields the claims depend on);
`book` is the id of the owning book. -/
structure BookReview where
  book : ℕ
  reviewer_name : String
  reviewer_email : String
  rating : ℕ
  title : String
  review_text : String
  verified_purchase : Bool
  helpful_votes : ℕ
deriving DecidableEq, Repr

/-- A field-constraint violation as §7 of the spec names it. -/
structure ValidationError where
  field : String
  rule : String
deriving DecidableEq, Repr

/-- Modelled from the spec: the storage-layer enforcement of
`BookReview.Meta.unique_together` on the pair of book and reviewer email
is not in `src/` (the framework raises the uniqueness `ValidationError`
when validating against the declared constraint); here creation checks
the stored reviews against that declaration and either rejects with a
`ValidationError` or appends the new review. -/
def createReview (reviews : List BookReview) (r : BookReview) :
    Except ValidationError (List BookReview) :=
  if reviews.any (fun s => s.book == r.book && s.reviewer_email == r.reviewer_email) then
    Except.error ⟨"book, reviewer_email", "unique_together"⟩
  else
    Except.ok (reviews ++ [r])

/-- At most one review per `(book, reviewer_email)` pair, the invariant
declared by `unique_together`. -/
def reviewsUnique (reviews : List BookReview) : Prop :=
  reviews.Pairwise (fun a b => ¬(a.book = b.book ∧ a.reviewer_email = b.reviewer_email))

/-- Embeds the `stores/models.py` declaration of `isbn_10` and `isbn_13` as `unique=True`
columns with `blank=True` and no `null=True`: an absent ISBN is stored as
the empty string, and the unique constraint compares the stored strings.
A stored catalog therefore satisfies: any two distinct rows differ on
`isbn_10` and differ on `isbn_13`. -/
def isbnColumnsUnique (books : List Book) : Prop :=
  books.Pairwise (fun a b => a.isbn_10 ≠ b.isbn_10 ∧ a.isbn_13 ≠ b.isbn_13)

/-- Case insensitive substring test, as the search contract of the spec
words it (`title__icontains` semantics); spec-side definition used only to
compare the implemented view against the claimed search behaviour. -/
def titleContainsCI (t q : String) : Bool :=
  decide (List.IsInfix (q.data.map Char.toLower) (t.data.map Char.toLower))

/-- Modelled from the spec (refinement comparison only): the search view
the spec describes — available books whose title contains the query
case-insensitively, an empty or absent query returning the unfiltered
available listing, ordered like the listing view. -/
def specSearch (q : Option String) (books : List Book) : List Book :=
  match q with
  | none => (books.filter (fun b => b.is_available)).insertionSort byTitle
  | some s =>
    if s = "" then (books.filter (fun b => b.is_available)).insertionSort byTitle
    else
      (books.filter (fun b => b.is_available && titleContainsCI b.title s)).insertionSort
        byTitle

/-! ### Concrete fixtures

Used by scenario conjuncts, counterexamples and witnesses below. -/

/-- A baseline book; the fixtures below override the fields under test. -/
def baseBook : Book where
  id := 0
  title := "Base"
  subtitle := ""
  isbn_10 := ""
  isbn_13 := ""
  authors := []
  description := "A book."
  language := "English"
  price := 10
  discount_percentage := 0
  stock_quantity := 3
  min_stock_level := 5
  book_format := "paperback"
  status := "available"
  average_rating := 0
  total_reviews := 0
  featured := false
  bestseller := false
  new_arrival := false
  tags := ""
  created_at := 0

def bkAlpha : Book := { baseBook with id := 1, title := "Alpha", created_at := 1 }

def bkBravo : Book := { baseBook with id := 2, title := "Bravo", created_at := 2 }

def bkCharlie : Book := { baseBook with id := 3, title := "Charlie", created_at := 3 }

def bkDelta : Book := { baseBook with id := 4, title := "Delta", created_at := 4 }

def bkEcho : Book := { baseBook with id := 5, title := "Echo", created_at := 5 }

/-- Unavailable: its status is not `available`. -/
def bkZulu : Book := { baseBook with id := 6, title := "Zulu", status := "out_of_stock", created_at := 6 }

/-- Status `available` but zero stock: not `is_available`. -/
def bkGhost : Book := { baseBook with id := 7, title := "Ghost", stock_quantity := 0, created_at := 7 }

/-! ### Helper lemmas -/

/-- Membership in the listing result: exactly the rows whose `status` column
is `available`, regardless of stock. -/
theorem mem_show_books {books : List Book} {b : Book} :
    b ∈ show_books books ↔ b ∈ books ∧ b.status = "available" := by
  unfold show_books
  rw [List.mem_insertionSort, List.mem_filter]
  simp

/-- The listing result is sorted by title. -/
theorem show_books_sorted (books : List Book) : (show_books books).Sorted byTitle :=
  List.sorted_insertionSort byTitle _

/-- A `true` `is_available` unfolds to its two conjuncts. -/
theorem is_available_iff {b : Book} :
    b.is_available = true ↔ b.status = "available" ∧ 0 < b.stock_quantity := by
  unfold Book.is_available
  simp

/-! ### C1 -/

/-- C1, as stated, is false: the `books/` view never reads the query
parameter, so the query `"alpha"` returns the book titled `"Bravo"` even
though `"Bravo"` does not contain `"alpha"` case-insensitively (the
spec-side search would return the empty list here). -/
theorem C1_counterexample :
    show_books_view ⟨some "alpha"⟩ [bkBravo] = [bkBravo] ∧
    specSearch (some "alpha") [bkBravo] = [] ∧
    titleContainsCI bkBravo.title "alpha" = false :=
  ⟨by decide, by decide, by decide⟩

/-- C1 (amended): the `books/` view ignores the query string entirely —
every query, empty, absent or not, returns the unfiltered listing of books
with status `available`, sorted by title; in particular, with 5
status-available books and 1 unavailable book the empty-string query
returns exactly the 5, sorted by title. -/
theorem C1_view_ignores_query :
    (∀ request books, show_books_view request books = show_books books) ∧
    (∀ books b, b ∈ show_books books ↔ b ∈ books ∧ b.status = "available") ∧
    (∀ books, (show_books books).Sorted byTitle) ∧
    show_books_view ⟨some ""⟩ [bkDelta, bkAlpha, bkZulu, bkCharlie, bkEcho, bkBravo]
      = [bkAlpha, bkBravo, bkCharlie, bkDelta, bkEcho] :=
  ⟨fun _ _ => rfl, fun _ _ => mem_show_books, fun books => show_books_sorted books,
    by decide⟩

/-! ### C2 -/

/-- C2, as stated, is false: a book with status `available` and
`stock_quantity = 0` is not `is_available`, yet the listing view returns
it — the view filters on the `status` column alone. -/
theorem C2_counterexample :
    bkGhost ∈ show_books [bkGhost] ∧ bkGhost.is_available = false :=
  ⟨by decide, by decide⟩

/-- C2 (amended): the listing view returns exactly the books whose
`status` is `available` — not the `is_available` books — sorted by title;
every `is_available` book does appear in it, but so does every
status-`available` book with zero stock. -/
theorem C2_listing_filters_status_only :
    (∀ books b, b ∈ show_books books ↔ b ∈ books ∧ b.status = "available") ∧
    (∀ books, (show_books books).Sorted byTitle) ∧
    (∀ books b, b ∈ books → b.is_available = true → b ∈ show_books books) :=
  ⟨fun _ _ => mem_show_books, fun books => show_books_sorted books,
    fun _ _ hmem hav => mem_show_books.mpr ⟨hmem, (is_available_iff.mp hav).1⟩⟩

/-- Witness for C2: instantiates the amended theorem on a concrete
one-book catalog. -/
theorem C2_witness : bkAlpha ∈ show_books [bkAlpha] :=
  C2_listing_filters_status_only.2.2 [bkAlpha] bkAlpha (by decide) (by decide)

/-! ### C3 -/

def auJane : Author := ⟨"Jane", "Doe"⟩

def auJohn : Author := ⟨"John", "Smith"⟩

/-- Associated with John Smith first and Jane Doe second: association
order and name order disagree. -/
def bkAuthorsSwapped : Book := { baseBook with id := 8, authors := [auJohn, auJane] }

/-- C3, as stated, is false: the display functions iterate
`authors.all()`, which applies the `Author` default ordering (last name,
then first name), not association order — a book whose authors were
associated as John Smith then Jane Doe displays
`"Jane Doe, John Smith"`, not the association-ordered join. -/
theorem C3_counterexample :
    BookAdmin.get_authors bkAuthorsSwapped = "Jane Doe, John Smith" ∧
    String.intercalate ", " (bkAuthorsSwapped.authors.map Author.full_name)
      = "John Smith, Jane Doe" ∧
    BookAdmin.get_authors bkAuthorsSwapped
      ≠ String.intercalate ", " (bkAuthorsSwapped.authors.map Author.full_name) :=
  ⟨by decide, by decide, by decide⟩

/-- C3 (amended): the author display (`BookAdmin.get_authors`, the
function realising the `display_authors` of the spec) joins the full
names of the linked authors with a comma-space separator in the `Author`
default order — sorted by last name, then first name — rather than in
association order (the displayed list is a name-sorted permutation of the
associated authors), and an empty association list yields the sentinel
`"No authors"`, never the empty string. -/
theorem C3_display_authors (b : Book) :
    (b.authors ≠ [] →
      BookAdmin.get_authors b
        = String.intercalate ", " (b.authors_all.map Author.full_name) ∧
      b.authors_all.Perm b.authors ∧
      b.authors_all.Sorted byAuthorName) ∧
    (b.authors = [] →
      BookAdmin.get_authors b = "No authors" ∧ BookAdmin.get_authors b ≠ "") := by
  constructor
  · intro h
    have hne : b.authors_all ≠ [] := by
      intro hcontra
      apply h
      have hperm := List.perm_insertionSort byAuthorName b.authors
      rw [show b.authors.insertionSort byAuthorName = b.authors_all from rfl,
        hcontra] at hperm
      exact hperm.symm.eq_nil
    unfold BookAdmin.get_authors
    rw [if_neg (by simpa [List.isEmpty_iff] using hne)]
    exact ⟨rfl, List.perm_insertionSort byAuthorName b.authors,
      List.sorted_insertionSort byAuthorName b.authors⟩
  · intro h
    unfold BookAdmin.get_authors
    simp [Book.authors_all, List.isEmpty_iff, h]

/-- Witness for C3: the two-author book whose association order disagrees
with name order, and an author-less book. -/
theorem C3_witness :
    (BookAdmin.get_authors bkAuthorsSwapped
      = String.intercalate ", " (bkAuthorsSwapped.authors_all.map Author.full_name) ∧
      bkAuthorsSwapped.authors_all.Perm bkAuthorsSwapped.authors ∧
      bkAuthorsSwapped.authors_all.Sorted byAuthorName) ∧
    BookAdmin.get_authors baseBook = "No authors" :=
  ⟨(C3_display_authors bkAuthorsSwapped).1 (by decide),
   ((C3_display_authors baseBook).2 rfl).1⟩

/-! ### C4 -/

/-- Price 0 with a 50% discount: discounted price equals price although
the discount percentage is not 0. -/
def bkFreebie : Book := { baseBook with id := 9, price := 0, discount_percentage := 50 }

def bk100d10 : Book := { baseBook with id := 10, price := 100, discount_percentage := 10 }

/-- C4, as stated, is false: a zero-priced book with a 50% discount is in
the claimed hypothesis range, its discounted price equals its price, yet
its discount percentage is not 0 — the claimed "equality iff
discount_percentage == 0" fails in the only-if direction. -/
theorem C4_counterexample :
    (0:ℚ) ≤ bkFreebie.price ∧ (0:ℚ) ≤ bkFreebie.discount_percentage ∧
    bkFreebie.discount_percentage ≤ 100 ∧
    bkFreebie.discounted_price = bkFreebie.price ∧
    bkFreebie.discount_percentage ≠ 0 := by
  refine ⟨by decide, by decide, by decide, ?_, by decide⟩
  norm_num [bkFreebie, baseBook, Book.discounted_price]

/-- C4 (amended): for price ≥ 0 and discount in [0,100] the discounted
price never exceeds the price, and equals it iff the discount percentage
is 0 or the price itself is 0. -/
theorem C4_discount_bounds (b : Book) (hp : 0 ≤ b.price)
    (hd0 : 0 ≤ b.discount_percentage) (hd1 : b.discount_percentage ≤ 100) :
    b.discounted_price ≤ b.price ∧
    (b.discounted_price = b.price ↔
      (b.discount_percentage = 0 ∨ b.price = 0)) := by
  unfold Book.discounted_price
  by_cases h : b.discount_percentage > 0
  · rw [if_pos h]
    have hnn : 0 ≤ b.price * b.discount_percentage / 100 := by positivity
    refine ⟨by linarith, ?_, ?_⟩
    · intro heq
      have hz : b.price * b.discount_percentage / 100 = 0 := by linarith
      have hz2 : b.price * b.discount_percentage = 0 := by
        have := congrArg (fun x : ℚ => x * 100) hz
        simpa using this
      rcases mul_eq_zero.mp hz2 with hp0 | hd
      · exact Or.inr hp0
      · exact Or.inl hd
    · rintro (hd | hp0)
      · exact absurd hd (ne_of_gt h)
      · rw [hp0]
        ring
  · rw [if_neg h]
    have hd : b.discount_percentage = 0 := le_antisymm (not_lt.mp h) hd0
    exact ⟨le_refl _, by simp [hd]⟩

/-- Witness for C4: the amended theorem at the 100.00-priced, 10%-discount
book. -/
theorem C4_witness :
    bk100d10.discounted_price ≤ bk100d10.price ∧
    (bk100d10.discounted_price = bk100d10.price ↔
      (bk100d10.discount_percentage = 0 ∨ bk100d10.price = 0)) :=
  C4_discount_bounds bk100d10 (by decide) (by decide) (by decide)

/-! ### C5 -/

/-- C5: `discounted_price` computes exactly
`price - price * discount_percentage / 100` when the discount percentage
is positive and `price` otherwise — in exact rational arithmetic, the
model of Python `Decimal` — and the spec scenario holds: price 100.00 at
10% discount is exactly 90.00. -/
theorem C5_discounted_price_formula :
    (∀ b : Book, 0 < b.discount_percentage →
      b.discounted_price = b.price - b.price * b.discount_percentage / 100) ∧
    (∀ b : Book, ¬ 0 < b.discount_percentage → b.discounted_price = b.price) ∧
    bk100d10.discounted_price = 90 := by
  refine ⟨fun b h => ?_, fun b h => ?_, ?_⟩
  · unfold Book.discounted_price
    rw [if_pos h]
  · unfold Book.discounted_price
    rw [if_neg h]
  · norm_num [bk100d10, baseBook, Book.discounted_price]

/-- Witness for C5: the formula instantiated at the 100.00-priced,
10%-discount book. -/
theorem C5_witness :
    bk100d10.discounted_price
      = bk100d10.price - bk100d10.price * bk100d10.discount_percentage / 100 :=
  C5_discounted_price_formula.1 bk100d10 (by decide)

/-! ### C6 -/

def bk20 : Book := { baseBook with id := 11, price := 20 }

/-- C6: for every book exactly one stock band (`out` = 0, `low` = (0,5],
`good` = (5,∞)) matches and exactly one price band (<20, [20,50), [50,100),
[100,∞)) matches; a book priced exactly $20 matches the $20–$50 band and
not the under-$20 band. -/
theorem C6_bands_partition :
    (∀ b : Book, ∃! s : StockBand, StockLevelFilter.matches s b = true) ∧
    (∀ b : Book, ∃! p : PriceBand, PriceRangeFilter.matches p b = true) ∧
    PriceRangeFilter.matches .from_20_to_50 bk20 = true ∧
    PriceRangeFilter.matches .under_20 bk20 = false := by
  refine ⟨fun b => ?_, fun b => ?_, by decide, by decide⟩
  · by_cases h0 : b.stock_quantity = 0
    · refine ⟨.out, by simp [StockLevelFilter.matches, h0], fun y hy => ?_⟩
      cases y <;> simp [StockLevelFilter.matches, h0] at hy ⊢
    · by_cases h5 : b.stock_quantity ≤ 5
      · refine ⟨.low, by simp [StockLevelFilter.matches]; omega, fun y hy => ?_⟩
        cases y <;> simp [StockLevelFilter.matches] at hy ⊢ <;> omega
      · refine ⟨.good, by simp [StockLevelFilter.matches]; omega, fun y hy => ?_⟩
        cases y <;> simp [StockLevelFilter.matches] at hy ⊢ <;> omega
  · by_cases h20 : b.price < 20
    · refine ⟨.under_20, by simp [PriceRangeFilter.matches, h20], fun y hy => ?_⟩
      cases y <;> simp [PriceRangeFilter.matches] at hy ⊢ <;> linarith
    · by_cases h50 : b.price < 50
      · refine ⟨.from_20_to_50,
          by simp [PriceRangeFilter.matches]; constructor <;> linarith, fun y hy => ?_⟩
        cases y <;> simp [PriceRangeFilter.matches] at hy ⊢ <;> linarith
      · by_cases h100 : b.price < 100
        · refine ⟨.from_50_to_100,
            by simp [PriceRangeFilter.matches]; constructor <;> linarith, fun y hy => ?_⟩
          cases y <;> simp [PriceRangeFilter.matches] at hy ⊢ <;> linarith
        · refine ⟨.over_100, by simp [PriceRangeFilter.matches]; linarith, fun y hy => ?_⟩
          cases y <;> simp [PriceRangeFilter.matches] at hy ⊢ <;> linarith

/-! ### C7 -/

/-- A featured, status-available, in-stock book, distinguished by `n`. -/
def bkFeat (n : ℕ) : Book :=
  { baseBook with id := 20 + n, title := "Featured", featured := true, created_at := 20 + n }

/-- Seven featured and available books. -/
def books7 : List Book :=
  [bkFeat 1, bkFeat 2, bkFeat 3, bkFeat 4, bkFeat 5, bkFeat 6, bkFeat 7]

/-- Featured, status `available`, but zero stock: not `is_available`. -/
def bkFGhost : Book :=
  { baseBook with id := 30, featured := true, stock_quantity := 0, created_at := 30 }

/-- C7, as stated, is false in its description of the result sets: the
`featured_books` set of the home view filters on the `status` column only, so a
featured book with status `available` and zero stock — not an available
book — is returned. -/
theorem C7_counterexample :
    (home [bkFGhost] [] []).featured_books = [bkFGhost] ∧
    bkFGhost.is_available = false :=
  ⟨by decide, by decide⟩

/-- C7 (amended): the home view returns the three aggregate counts plus
three result sets of at most 6 books each — featured, most recent, and
bestseller books among those with status `available` (stock is not
consulted) — with the latest set in descending creation order; 7
featured+available books yield exactly 6 by truncation. -/
theorem C7_home_sections (books : List Book) (authors : List Author)
    (categories : List Category) :
    (home books authors categories).total_books = books.length ∧
    (home books authors categories).total_authors = authors.length ∧
    (home books authors categories).total_categories = categories.length ∧
    (home books authors categories).featured_books.length ≤ 6 ∧
    (home books authors categories).latest_books.length ≤ 6 ∧
    (home books authors categories).bestsellers.length ≤ 6 ∧
    (∀ b, b ∈ (home books authors categories).featured_books →
      b ∈ books ∧ b.featured = true ∧ b.status = "available") ∧
    (∀ b, b ∈ (home books authors categories).latest_books →
      b ∈ books ∧ b.status = "available") ∧
    (∀ b, b ∈ (home books authors categories).bestsellers →
      b ∈ books ∧ b.bestseller = true ∧ b.status = "available") ∧
    (home books authors categories).latest_books.Sorted byNewest ∧
    (books7.all (fun b => b.featured && b.is_available) = true ∧
      books7.length = 7 ∧
      (home books7 [] []).featured_books
        = [bkFeat 7, bkFeat 6, bkFeat 5, bkFeat 4, bkFeat 3, bkFeat 2]) := by
  refine ⟨rfl, rfl, rfl, List.length_take_le 6 _, List.length_take_le 6 _,
    List.length_take_le 6 _, fun b hb => ?_, fun b hb => ?_, fun b hb => ?_, ?_,
    by decide, by decide, by decide⟩
  · have hmem := List.take_subset 6 _ hb
    rw [List.mem_insertionSort, List.mem_filter] at hmem
    have := hmem.2
    simp at this
    exact ⟨hmem.1, this.1, this.2⟩
  · have hmem := List.take_subset 6 _ hb
    rw [List.mem_insertionSort, List.mem_filter] at hmem
    have := hmem.2
    simp at this
    exact ⟨hmem.1, this⟩
  · have hmem := List.take_subset 6 _ hb
    rw [List.mem_insertionSort, List.mem_filter] at hmem
    have := hmem.2
    simp at this
    exact ⟨hmem.1, this.1, this.2⟩
  · exact List.Pairwise.sublist (List.take_sublist 6 _)
      (List.sorted_insertionSort byNewest _)

/-- Witness for C7: the membership characterisation instantiated on the
seven-featured-books catalog. -/
theorem C7_witness :
    bkFeat 7 ∈ books7 ∧ (bkFeat 7).featured = true ∧ (bkFeat 7).status = "available" :=
  (C7_home_sections books7 [] []).2.2.2.2.2.2.1 (bkFeat 7) (by decide)

/-! ### C8 -/

def rev1 : BookReview :=
  ⟨1, "Ann", "ann@example.com", 5, "Great", "Loved it", false, 0⟩

/-- Same book and same reviewer email as `rev1`. -/
def rev2 : BookReview :=
  ⟨1, "Ann B", "ann@example.com", 2, "Meh", "Changed my mind", false, 0⟩

/-- C8: creating a review for a `(book, reviewer email)` pair that already
has one fails with the uniqueness `ValidationError` — so the stored
collection is unchanged, no new collection being produced — and a
successful creation preserves the at-most-one-review-per-pair invariant. -/
theorem C8_review_uniqueness :
    (∀ (reviews : List BookReview) (r prev : BookReview), prev ∈ reviews →
      prev.book = r.book → prev.reviewer_email = r.reviewer_email →
      createReview reviews r
        = Except.error ⟨"book, reviewer_email", "unique_together"⟩) ∧
    (∀ (reviews : List BookReview) (r : BookReview) (result : List BookReview),
      reviewsUnique reviews → createReview reviews r = Except.ok result →
      reviewsUnique result) := by
  constructor
  · intro reviews r prev hmem hb he
    unfold createReview
    rw [if_pos]
    rw [List.any_eq_true]
    exact ⟨prev, hmem, by simp [hb, he]⟩
  · intro reviews r result hwf hok
    unfold createReview at hok
    by_cases hdup : reviews.any
        (fun s => s.book == r.book && s.reviewer_email == r.reviewer_email) = true
    · rw [if_pos hdup] at hok
      exact absurd hok (by simp)
    · rw [if_neg hdup] at hok
      obtain rfl : reviews ++ [r] = result := by
        simpa using hok
      unfold reviewsUnique
      rw [List.pairwise_append]
      refine ⟨hwf, by simp, fun a ha c hc => ?_⟩
      simp only [List.mem_singleton] at hc
      subst hc
      intro hcontra
      exact hdup (List.any_eq_true.mpr
        ⟨a, ha, by simp [hcontra.1, hcontra.2]⟩)

/-- Witness for C8: a second review by `ann@example.com` for book 1 is
rejected with the uniqueness error. -/
theorem C8_witness :
    createReview [rev1] rev2
      = Except.error ⟨"book, reviewer_email", "unique_together"⟩ :=
  C8_review_uniqueness.1 [rev1] rev2 rev1 (by decide) (by decide) (by decide)

/-! ### C9 -/

/-- Agreement on every `Book` field except `featured`. -/
def AgreesExceptFeatured (a b : Book) : Prop :=
  a.id = b.id ∧ a.title = b.title ∧ a.subtitle = b.subtitle ∧
  a.isbn_10 = b.isbn_10 ∧ a.isbn_13 = b.isbn_13 ∧ a.authors = b.authors ∧
  a.description = b.description ∧ a.language = b.language ∧ a.price = b.price ∧
  a.discount_percentage = b.discount_percentage ∧
  a.stock_quantity = b.stock_quantity ∧ a.min_stock_level = b.min_stock_level ∧
  a.book_format = b.book_format ∧ a.status = b.status ∧
  a.average_rating = b.average_rating ∧ a.total_reviews = b.total_reviews ∧
  a.bestseller = b.bestseller ∧ a.new_arrival = b.new_arrival ∧
  a.tags = b.tags ∧ a.created_at = b.created_at

/-- Agreement on every `Book` field except `bestseller`. -/
def AgreesExceptBestseller (a b : Book) : Prop :=
  a.id = b.id ∧ a.title = b.title ∧ a.subtitle = b.subtitle ∧
  a.isbn_10 = b.isbn_10 ∧ a.isbn_13 = b.isbn_13 ∧ a.authors = b.authors ∧
  a.description = b.description ∧ a.language = b.language ∧ a.price = b.price ∧
  a.discount_percentage = b.discount_percentage ∧
  a.stock_quantity = b.stock_quantity ∧ a.min_stock_level = b.min_stock_level ∧
  a.book_format = b.book_format ∧ a.status = b.status ∧
  a.average_rating = b.average_rating ∧ a.total_reviews = b.total_reviews ∧
  a.featured = b.featured ∧ a.new_arrival = b.new_arrival ∧
  a.tags = b.tags ∧ a.created_at = b.created_at

/-- Agreement on every `Book` field except `discount_percentage`. -/
def AgreesExceptDiscount (a b : Book) : Prop :=
  a.id = b.id ∧ a.title = b.title ∧ a.subtitle = b.subtitle ∧
  a.isbn_10 = b.isbn_10 ∧ a.isbn_13 = b.isbn_13 ∧ a.authors = b.authors ∧
  a.description = b.description ∧ a.language = b.language ∧ a.price = b.price ∧
  a.stock_quantity = b.stock_quantity ∧ a.min_stock_level = b.min_stock_level ∧
  a.book_format = b.book_format ∧ a.status = b.status ∧
  a.average_rating = b.average_rating ∧ a.total_reviews = b.total_reviews ∧
  a.featured = b.featured ∧ a.bestseller = b.bestseller ∧
  a.new_arrival = b.new_arrival ∧ a.tags = b.tags ∧ a.created_at = b.created_at

/-- C9: each bulk action keeps the catalog length, sets exactly its named
field on each selected book leaving the other fields of that book unchanged,
and leaves unselected books entirely unchanged. -/
theorem C9_bulk_actions (selected : ℕ → Bool) (books : List Book) (i : ℕ)
    (b : Book) (hget : books[i]? = some b) :
    ((mark_as_featured selected books).length = books.length ∧
      (selected b.id = true →
        ∃ c, (mark_as_featured selected books)[i]? = some c ∧
          c.featured = true ∧ AgreesExceptFeatured c b) ∧
      (selected b.id = false → (mark_as_featured selected books)[i]? = some b)) ∧
    ((mark_as_bestseller selected books).length = books.length ∧
      (selected b.id = true →
        ∃ c, (mark_as_bestseller selected books)[i]? = some c ∧
          c.bestseller = true ∧ AgreesExceptBestseller c b) ∧
      (selected b.id = false → (mark_as_bestseller selected books)[i]? = some b)) ∧
    ((apply_discount selected books).length = books.length ∧
      (selected b.id = true →
        ∃ c, (apply_discount selected books)[i]? = some c ∧
          c.discount_percentage = 10 ∧ AgreesExceptDiscount c b) ∧
      (selected b.id = false → (apply_discount selected books)[i]? = some b)) := by
  unfold mark_as_featured mark_as_bestseller apply_discount
  refine ⟨⟨List.length_map _ _, fun hsel => ?_, fun hsel => ?_⟩,
    ⟨List.length_map _ _, fun hsel => ?_, fun hsel => ?_⟩,
    ⟨List.length_map _ _, fun hsel => ?_, fun hsel => ?_⟩⟩ <;>
    rw [List.getElem?_map, hget]
  · exact ⟨{ b with featured := true }, by simp [hsel], rfl,
      by simp [AgreesExceptFeatured]⟩
  · simp [hsel]
  · exact ⟨{ b with bestseller := true }, by simp [hsel], rfl,
      by simp [AgreesExceptBestseller]⟩
  · simp [hsel]
  · exact ⟨{ b with discount_percentage := 10 }, by simp [hsel], rfl,
      by simp [AgreesExceptDiscount]⟩
  · simp [hsel]

/-- Witness for C9: the actions on a two-book catalog selecting id 1. -/
theorem C9_witness :
    (mark_as_featured (fun n => n == 1) [bkAlpha, bkBravo]).length
      = [bkAlpha, bkBravo].length :=
  (C9_bulk_actions (fun n => n == 1) [bkAlpha, bkBravo] 0 bkAlpha (by decide)).1.1

/-! ### C10 -/

/-- On a list whose projections under `f` are pairwise distinct, at most
one element projects to any given value. -/
theorem countP_le_one_of_pairwise_ne {α : Type} (f : α → String) (v : String)
    (l : List α) (h : l.Pairwise (fun a b => f a ≠ f b)) :
    (l.countP (fun a => f a == v)) ≤ 1 := by
  induction l with
  | nil => simp
  | cons x xs ih =>
    rw [List.pairwise_cons] at h
    rw [List.countP_cons]
    by_cases hx : f x = v
    · have h0 : xs.countP (fun a => f a == v) = 0 := by
        rw [List.countP_eq_zero]
        intro a ha
        simp only [beq_iff_eq]
        intro hav
        exact (h.1 a ha) (hx.trans hav.symm)
      simp [h0, hx]
    · simp only [hx, beq_iff_eq, if_neg]
      simpa using ih h.2

def bkIsbnA : Book :=
  { baseBook with id := 40, isbn_10 := "0306406152", isbn_13 := "9780306406157" }

/-- A book lacking both ISBNs: stored as empty strings. -/
def bkIsbnB : Book := { baseBook with id := 41, isbn_10 := "", isbn_13 := "" }

/-- C10: under the unique `isbn_10`/`isbn_13` columns (absent values
stored as the empty string), any two rows at distinct positions differ on
both ISBN fields, and at most one row in the catalog can lack an ISBN-10
and at most one can lack an ISBN-13. -/
theorem C10_isbn_uniqueness (books : List Book) (h : isbnColumnsUnique books) :
    (∀ (i j : ℕ) (a b : Book), i ≠ j → books[i]? = some a → books[j]? = some b →
      a.isbn_10 ≠ b.isbn_10 ∧ a.isbn_13 ≠ b.isbn_13) ∧
    (books.countP (fun b => b.isbn_10 == "")) ≤ 1 ∧
    (books.countP (fun b => b.isbn_13 == "")) ≤ 1 := by
  refine ⟨fun i j a b hij hi hj => ?_, ?_, ?_⟩
  · unfold isbnColumnsUnique at h
    rw [List.pairwise_iff_getElem] at h
    rw [List.getElem?_eq_some] at hi hj
    obtain ⟨hilt, hieq⟩ := hi
    obtain ⟨hjlt, hjeq⟩ := hj
    rcases Nat.lt_or_ge i j with hlt | hge
    · have := h i j hilt hjlt hlt
      rw [hieq, hjeq] at this
      exact this
    · have hlt2 : j < i := Nat.lt_of_le_of_ne hge (fun hji => hij hji.symm)
      have := h j i hjlt hilt hlt2
      rw [hieq, hjeq] at this
      exact ⟨this.1.symm, this.2.symm⟩
  · exact countP_le_one_of_pairwise_ne Book.isbn_10 "" books
      ((List.Pairwise.imp (fun hab => hab.1)) h)
  · exact countP_le_one_of_pairwise_ne Book.isbn_13 "" books
      ((List.Pairwise.imp (fun hab => hab.2)) h)

/-- Witness for C10: a two-book catalog, one book lacking its ISBNs. -/
theorem C10_witness :
    ([bkIsbnA, bkIsbnB].countP (fun b => b.isbn_10 == "")) ≤ 1 :=
  (C10_isbn_uniqueness [bkIsbnA, bkIsbnB] (by
    unfold isbnColumnsUnique
    refine List.Pairwise.cons (fun b hb => ?_) (by simp)
    rw [List.mem_singleton] at hb
    subst hb
    exact ⟨by decide, by decide⟩)).2.1

/-- Witness for C1: the amended theorem instantiated on a concrete query
and one-book catalog. -/
theorem C1_witness : show_books_view ⟨some "zzz"⟩ [bkAlpha] = show_books [bkAlpha] :=
  C1_view_ignores_query.1 ⟨some "zzz"⟩ [bkAlpha]

/-- Witness for C6: the partition statement instantiated on the baseline
book. -/
theorem C6_witness : ∃! s : StockBand, StockLevelFilter.matches s baseBook = true :=
  C6_bands_partition.1 baseBook

end Bookstore
